import Mathlib

/-!
Shallow embedding of the Zephyr `native_posix` counter driver
(`src/drivers/counter/counter_native_posix.c`) and proofs about its
timer/alarm scheduling logic.

The driver state is the set of static variables of the C file; the hardware
counter is modelled by its observable registers (current value, comparator
target, started flag).  All tick arithmetic is `u32` arithmetic, embedded as
`Nat` with explicit reduction modulo `2^32`.  Callback invocations are
recorded as an ordered event list instead of calling function pointers.
-/

namespace CounterNativePosix

/-- `2^32`, the wraparound modulus of the 32-bit counter. -/
def U32 : Nat := 4294967296

/-- `TOP_VALUE = UINT_MAX`. -/
def TOP_VALUE : Nat := U32 - 1

/-- 32-bit wrapping addition (`a + b` on `uint32_t`). -/
def add32 (a b : Nat) : Nat := (a + b) % U32

/-- 32-bit wrapping subtraction (`a - b` on `uint32_t`); for `a, b < 2^32`
this is the wraparound distance from `b` to `a`. -/
def sub32 (a b : Nat) : Nat := (a % U32 + (U32 - b % U32)) % U32

/-- Embedding of `struct counter_alarm_cfg` (the fields the driver reads):
`ticks`, the `COUNTER_ALARM_CFG_ABSOLUTE` flag, and whether `callback`
is non-NULL. -/
structure AlarmCfg where
  ticks : Nat
  absolute : Bool
  hasCallback : Bool
  deriving Repr, DecidableEq

/-- Embedding of `struct counter_top_cfg` (the fields the driver reads):
`ticks`, whether `callback` is non-NULL, and the `COUNTER_TOP_CFG_DONT_RESET`
and `COUNTER_TOP_CFG_RESET_WHEN_LATE` flags. -/
structure TopCfg where
  ticks : Nat
  hasCallback : Bool
  dontReset : Bool
  resetWhenLate : Bool
  deriving Repr, DecidableEq

/-- The driver's static variables: `pending_alarm`, `is_alarm_pending`,
`top`, `is_top_set`, `last_top`, `next_top`. -/
structure DriverState where
  pending_alarm : AlarmCfg
  is_alarm_pending : Bool
  top : TopCfg
  is_top_set : Bool
  last_top : Nat
  next_top : Nat
  deriving Repr, DecidableEq

/-- Observable state of the external hardware counter: the free-running
register (`hw_counter_get_value`), the comparator (`hw_counter_set_target`)
and the started flag (`hw_counter_is_started`). -/
structure HwState where
  value : Nat
  target : Nat
  started : Bool
  deriving Repr, DecidableEq

/-- `hw_counter_reset()`: sets the register to 0. -/
def hwReset (hw : HwState) : HwState := { hw with value := 0 }

/-- `hw_counter_set_target(t)`. -/
def hwSetTarget (hw : HwState) (t : Nat) : HwState := { hw with target := t }

/-- Error codes returned by the driver (negated errno constants in C). -/
inductive Err where
  | EBUSY
  | ETIME
  | ENOTSUP
  | EINVAL
  deriving Repr, DecidableEq

deriving instance DecidableEq for Except

/-- Result of a configuration operation: the returned code plus the updated
driver state and hardware state. -/
structure OpOut where
  res : Except Err Unit
  st : DriverState
  hw : HwState
  deriving Repr, DecidableEq

/-- Callback invocations recorded by the event handler, in invocation
order. -/
inductive Ev where
  | top
  | alarm
  deriving Repr, DecidableEq

/-- Result of one run of the event handler. -/
structure IsrOut where
  st : DriverState
  hw : HwState
  events : List Ev
  deriving Repr, DecidableEq

/-- Shared tail of `ctr_set_top_value` after the reset logic: store
`top = *cfg`, `last_top = current_value`, then either activate the top
(program `current_value + cfg->ticks`) or mark it inactive. -/
def set_top_finish (s : DriverState) (hw : HwState) (cfg : TopCfg)
    (current_value : Nat) : OpOut :=
  let s := { s with top := cfg, last_top := current_value }
  if cfg.ticks ≠ TOP_VALUE ∧ cfg.hasCallback = true then
    { res := .ok ()
      st := { s with is_top_set := true }
      hw := hwSetTarget hw (add32 current_value cfg.ticks) }
  else
    { res := .ok ()
      st := { s with is_top_set := false }
      hw := hw }

/-- `ctr_set_top_value` from the C source. -/
def ctr_set_top_value (s : DriverState) (hw : HwState) (cfg : TopCfg) :
    OpOut :=
  if s.is_alarm_pending = true then
    { res := .error .EBUSY, st := s, hw := hw }
  else
    let current_value := hw.value
    if cfg.dontReset = true then
      if current_value ≥ cfg.ticks then
        let hw := if cfg.resetWhenLate = true then hwReset hw else hw
        { res := .error .ETIME, st := s, hw := hw }
      else
        set_top_finish s hw cfg current_value
    else
      set_top_finish s (hwReset hw) cfg current_value

/-- `ctr_set_alarm` from the C source.  `chan_id` is the `uint8_t` channel
index; `DRIVER_CONFIG_INFO_CHANNELS = 1`. -/
def ctr_set_alarm (s : DriverState) (hw : HwState) (chan_id : Nat)
    (alarm_cfg : AlarmCfg) : OpOut :=
  if chan_id ≥ 1 then
    { res := .error .ENOTSUP, st := s, hw := hw }
  else if s.is_alarm_pending = true then
    { res := .error .EBUSY, st := s, hw := hw }
  else
    let current_value := hw.value
    let ticks :=
      if alarm_cfg.absolute = true then alarm_cfg.ticks
      else add32 alarm_cfg.ticks current_value
    if s.is_top_set = true ∧
        sub32 ticks current_value > sub32 s.top.ticks current_value then
      { res := .error .EINVAL, st := s, hw := hw }
    else
      let s := { s with
        pending_alarm := { alarm_cfg with ticks := ticks }
        is_alarm_pending := true }
      if sub32 TOP_VALUE current_value < sub32 ticks current_value then
        { res := .ok (), st := s, hw := hwSetTarget hw TOP_VALUE }
      else
        { res := .ok (), st := s, hw := hwSetTarget hw s.pending_alarm.ticks }

/-- `ctr_cancel_alarm` from the C source. -/
def ctr_cancel_alarm (s : DriverState) (hw : HwState) (chan_id : Nat) :
    OpOut :=
  if chan_id ≥ 1 then
    { res := .error .ENOTSUP, st := s, hw := hw }
  else if hw.started = false then
    { res := .error .ENOTSUP, st := s, hw := hw }
  else
    { res := .ok (), st := { s with is_alarm_pending := false }, hw := hw }

/-- Result of the alarm-check step of the event handler. -/
structure AlarmStepOut where
  st : DriverState
  events : List Ev
  deriving Repr, DecidableEq

/-- Step 1 of `counter_isr`: the top check. -/
def isr_top_step (s : DriverState) (hw : HwState) (current_value : Nat) :
    IsrOut :=
  if s.is_top_set = true ∧ current_value = add32 s.last_top s.top.ticks then
    let evs := if s.top.hasCallback = true then [Ev.top] else []
    let last_top := current_value
    let next_top := add32 current_value s.top.ticks
    let hw :=
      if next_top < last_top then hwSetTarget hw TOP_VALUE
      else hwSetTarget hw next_top
    { st := { s with last_top := last_top, next_top := next_top }
      hw := hw, events := evs }
  else
    { st := s, hw := hw, events := [] }

/-- Step 2 of `counter_isr`: the alarm check. -/
def isr_alarm_step (s : DriverState) (current_value : Nat) : AlarmStepOut :=
  if s.is_alarm_pending = true ∧ current_value = s.pending_alarm.ticks then
    { st := { s with is_alarm_pending := false }
      events := if s.pending_alarm.hasCallback = true then [Ev.alarm] else [] }
  else
    { st := s, events := [] }

/-- Step 3 of `counter_isr`: rollover handling when `current_value ==
TOP_VALUE`. -/
def isr_rollover_step (s : DriverState) (hw : HwState) (current_value : Nat) :
    HwState :=
  if current_value = TOP_VALUE then
    let hw := hwReset hw
    if s.is_alarm_pending = true ∧ s.is_top_set = true then
      hwSetTarget hw (min s.pending_alarm.ticks s.next_top)
    else if s.is_alarm_pending = true then
      hwSetTarget hw s.pending_alarm.ticks
    else if s.is_top_set = true then
      hwSetTarget hw s.next_top
    else
      hwSetTarget hw TOP_VALUE
  else
    hw

/-- `counter_isr` from the C source: one snapshot of the hardware value at
entry, then the top check, the alarm check, and the rollover check in this
fixed order.  Fired callbacks are returned in invocation order. -/
def counter_isr (s : DriverState) (hw : HwState) : IsrOut :=
  let current_value := hw.value
  let o1 := isr_top_step s hw current_value
  let o2 := isr_alarm_step o1.st current_value
  let hw2 := isr_rollover_step o2.st o1.hw current_value
  { st := o2.st, hw := hw2, events := o1.events ++ o2.events }

/-! ## Concrete states used in counterexamples and witnesses -/

/-- An inert alarm configuration record (no alarm pending). -/
def idleAlarm : AlarmCfg := { ticks := 0, absolute := true, hasCallback := false }

/-- An inert top configuration record (no top set). -/
def idleTop : TopCfg :=
  { ticks := 0, hasCallback := false, dontReset := false, resetWhenLate := false }

/-- State for the C1 counterexample: an active top with period 10 installed
at value 0 (`last_top = 0`), no alarm pending. -/
def ce1_state : DriverState :=
  { pending_alarm := idleAlarm
    is_alarm_pending := false
    top := { ticks := 10, hasCallback := true, dontReset := false,
             resetWhenLate := false }
    is_top_set := true, last_top := 0, next_top := 10 }

/-- Hardware for the C1 counterexample: counter at 3, armed at 10. -/
def ce1_hw : HwState := { value := 3, target := 10, started := true }

/-- Alarm request for the C1 counterexample: absolute tick 11. -/
def ce1_cfg : AlarmCfg := { ticks := 11, absolute := true, hasCallback := true }

/-- State for the C2 counterexample: nothing armed yet; `next_top` happens to
hold the tick the new top will be due at, `2^32 - 5`. -/
def ce2_state : DriverState :=
  { pending_alarm := idleAlarm
    is_alarm_pending := false
    top := idleTop
    is_top_set := false, last_top := 0, next_top := 4294967291 }

/-- Hardware for the C2 counterexample: counter at `2^32 - 3`. -/
def ce2_hw : HwState :=
  { value := 4294967293, target := 4294967295, started := true }

/-- Top request for the C2 counterexample: period `2^32 - 2` with
`COUNTER_TOP_CFG_DONT_RESET`, so the counter keeps its value and
`v + period` wraps past `TOP_VALUE`. -/
def ce2_cfg : TopCfg :=
  { ticks := 4294967294, hasCallback := true, dontReset := true,
    resetWhenLate := false }

/-- State for the C3 counterexample: an active top with period 10 due at
tick 10, no alarm pending. -/
def ce3_state : DriverState :=
  { pending_alarm := idleAlarm
    is_alarm_pending := false
    top := { ticks := 10, hasCallback := true, dontReset := false,
             resetWhenLate := false }
    is_top_set := true, last_top := 0, next_top := 10 }

/-- Hardware for the C3 counterexample: the match fired at 10, far from
`TOP_VALUE`. -/
def ce3_hw : HwState := { value := 10, target := 10, started := true }

/-! ## Helper lemmas -/

/-- Unfolding lemma: the hardware state produced by one handler run. -/
lemma counter_isr_hw_eq (s : DriverState) (hw : HwState) :
    (counter_isr s hw).hw =
      isr_rollover_step
        (isr_alarm_step (isr_top_step s hw hw.value).st hw.value).st
        (isr_top_step s hw hw.value).hw hw.value := rfl

/-- Unfolding lemma: the driver state produced by one handler run. -/
lemma counter_isr_st_eq (s : DriverState) (hw : HwState) :
    (counter_isr s hw).st =
      (isr_alarm_step (isr_top_step s hw hw.value).st hw.value).st := rfl

/-- The rollover step at `TOP_VALUE` always leaves the register at 0. -/
lemma isr_rollover_step_value (s : DriverState) (hw : HwState) :
    (isr_rollover_step s hw TOP_VALUE).value = 0 := by
  unfold isr_rollover_step
  rw [if_pos rfl]
  repeat first
  | rfl
  | split

/-- Unfolding lemma: the rollover step at `TOP_VALUE` as a case tree. -/
lemma isr_rollover_step_eq (s : DriverState) (hw : HwState) :
    isr_rollover_step s hw TOP_VALUE =
      (if s.is_alarm_pending = true ∧ s.is_top_set = true then
        hwSetTarget (hwReset hw) (min s.pending_alarm.ticks s.next_top)
      else if s.is_alarm_pending = true then
        hwSetTarget (hwReset hw) s.pending_alarm.ticks
      else if s.is_top_set = true then
        hwSetTarget (hwReset hw) s.next_top
      else hwSetTarget (hwReset hw) TOP_VALUE) := by
  unfold isr_rollover_step
  rw [if_pos rfl]

/-- Unfolding lemma: the success tail of `ctr_set_top_value` when the new
top is activated. -/
lemma set_top_finish_active (s : DriverState) (hw : HwState) (cfg : TopCfg)
    (cv : Nat) (h : cfg.ticks ≠ TOP_VALUE ∧ cfg.hasCallback = true) :
    set_top_finish s hw cfg cv =
      { res := .ok ()
        st := { s with top := cfg, last_top := cv, is_top_set := true }
        hw := hwSetTarget hw (add32 cv cfg.ticks) } := by
  unfold set_top_finish
  rw [if_pos h]

/-- Unfolding lemma: the success tail of `ctr_set_top_value` when the new
top is degenerate (`ticks == TOP_VALUE` or no callback). -/
lemma set_top_finish_inactive (s : DriverState) (hw : HwState) (cfg : TopCfg)
    (cv : Nat) (h : ¬ (cfg.ticks ≠ TOP_VALUE ∧ cfg.hasCallback = true)) :
    set_top_finish s hw cfg cv =
      { res := .ok ()
        st := { s with top := cfg, last_top := cv, is_top_set := false }
        hw := hw } := by
  unfold set_top_finish
  rw [if_neg h]

/-- Unfolding lemma: `ctr_set_top_value` with no pending alarm as a case
tree over the reset flags. -/
lemma ctr_set_top_value_eq (s : DriverState) (hw : HwState) (cfg : TopCfg)
    (hp : s.is_alarm_pending = false) :
    ctr_set_top_value s hw cfg =
      (if cfg.dontReset = true then
        (if hw.value ≥ cfg.ticks then
          { res := .error .ETIME, st := s
            hw := if cfg.resetWhenLate = true then hwReset hw else hw }
         else set_top_finish s hw cfg hw.value)
      else set_top_finish s (hwReset hw) cfg hw.value) := by
  unfold ctr_set_top_value
  rw [if_neg (by simp [hp])]

/-- Unfolding lemma: `ctr_set_alarm` on channel 0 with no pending alarm and
the epoch check passing. -/
lemma ctr_set_alarm_ok_eq (s : DriverState) (hw : HwState) (acfg : AlarmCfg)
    (hp : s.is_alarm_pending = false)
    (hc : ¬ (s.is_top_set = true ∧
      sub32 (if acfg.absolute = true then acfg.ticks
             else add32 acfg.ticks hw.value) hw.value >
        sub32 s.top.ticks hw.value)) :
    ctr_set_alarm s hw 0 acfg =
      { res := .ok ()
        st := { s with
          pending_alarm := { acfg with
            ticks := if acfg.absolute = true then acfg.ticks
                     else add32 acfg.ticks hw.value }
          is_alarm_pending := true }
        hw := hwSetTarget hw
          (if sub32 TOP_VALUE hw.value <
              sub32 (if acfg.absolute = true then acfg.ticks
                     else add32 acfg.ticks hw.value) hw.value then TOP_VALUE
           else if acfg.absolute = true then acfg.ticks
                else add32 acfg.ticks hw.value) } := by
  simp only [ctr_set_alarm]
  rw [if_neg (by omega : ¬ (0 : Nat) ≥ 1), if_neg (by simp [hp]), if_neg hc]
  split <;> split <;> rfl

/-! ## Theorems -/

/-- C7: whenever an alarm is pending, both `ctr_set_alarm` (on the valid
channel 0) and `ctr_set_top_value` return `-EBUSY`, and neither the driver
state (pending alarm, top configuration) nor the hardware state (target
register included) is altered. -/
theorem C7_busy_frame (s : DriverState) (hw : HwState) (tcfg : TopCfg)
    (acfg : AlarmCfg) (h : s.is_alarm_pending = true) :
    ctr_set_top_value s hw tcfg = { res := .error .EBUSY, st := s, hw := hw } ∧
    ctr_set_alarm s hw 0 acfg = { res := .error .EBUSY, st := s, hw := hw } := by
  constructor
  · simp [ctr_set_top_value, h]
  · simp [ctr_set_alarm, h]

/-- Witness for C7 at a concrete pending-alarm state. -/
theorem C7_busy_frame_witness :
    ctr_set_top_value
        { pending_alarm := { ticks := 5, absolute := true, hasCallback := true }
          is_alarm_pending := true
          top := { ticks := 100, hasCallback := true, dontReset := false,
                   resetWhenLate := false }
          is_top_set := true, last_top := 0, next_top := 100 }
        { value := 7, target := 5, started := true }
        { ticks := 30, hasCallback := true, dontReset := false,
          resetWhenLate := false } =
      { res := .error .EBUSY
        st := { pending_alarm := { ticks := 5, absolute := true,
                                   hasCallback := true }
                is_alarm_pending := true
                top := { ticks := 100, hasCallback := true, dontReset := false,
                         resetWhenLate := false }
                is_top_set := true, last_top := 0, next_top := 100 }
        hw := { value := 7, target := 5, started := true } } :=
  (C7_busy_frame _ _ _ { ticks := 9, absolute := true, hasCallback := true }
    rfl).1

/-- C8: with the `COUNTER_TOP_CFG_DONT_RESET` flag set and the current value
at least the requested period (and no pending alarm, which would take the
`-EBUSY` branch first), `ctr_set_top_value` returns `-ETIME`, stores no top
state, and resets the hardware register to 0 exactly when
`COUNTER_TOP_CFG_RESET_WHEN_LATE` is also set; without that flag the whole
hardware state, the target register included, is unchanged. -/
theorem C8_dont_reset_too_late (s : DriverState) (hw : HwState) (cfg : TopCfg)
    (hpend : s.is_alarm_pending = false) (hd : cfg.dontReset = true)
    (hv : hw.value ≥ cfg.ticks) :
    ctr_set_top_value s hw cfg =
      { res := .error .ETIME, st := s
        hw := if cfg.resetWhenLate = true then hwReset hw else hw } ∧
    (ctr_set_top_value s hw cfg).hw.target = hw.target ∧
    (cfg.resetWhenLate = true → (ctr_set_top_value s hw cfg).hw.value = 0) ∧
    (cfg.resetWhenLate = false → (ctr_set_top_value s hw cfg).hw = hw) := by
  have h1 : ctr_set_top_value s hw cfg =
      { res := .error .ETIME, st := s
        hw := if cfg.resetWhenLate = true then hwReset hw else hw } := by
    simp [ctr_set_top_value, hpend, hd, hv]
  refine ⟨h1, ?_, ?_, ?_⟩
  · rw [h1]; cases h : cfg.resetWhenLate <;> simp [hwReset]
  · intro h; rw [h1]; simp [h, hwReset]
  · intro h; rw [h1]; simp [h]

/-- Witness for C8 at a concrete late don't-reset request. -/
theorem C8_dont_reset_too_late_witness :
    (ctr_set_top_value
        { pending_alarm := { ticks := 0, absolute := true, hasCallback := false }
          is_alarm_pending := false
          top := { ticks := 0, hasCallback := false, dontReset := false,
                   resetWhenLate := false }
          is_top_set := false, last_top := 0, next_top := 0 }
        { value := 4294967293, target := 4294967295, started := true }
        { ticks := 5, hasCallback := true, dontReset := true,
          resetWhenLate := false }).hw =
      { value := 4294967293, target := 4294967295, started := true } :=
  (C8_dont_reset_too_late _ _ _ rfl rfl (by decide)).2.2.2 rfl

/-- C9: `ctr_cancel_alarm` returns `-ENOTSUP` exactly when the channel index
is outside the single supported channel or the hardware counter is not
running; otherwise it succeeds, clears the pending-alarm flag, and leaves the
hardware state (target register included) untouched. -/
theorem C9_cancel_alarm_spec (s : DriverState) (hw : HwState) (chan : Nat) :
    ((ctr_cancel_alarm s hw chan).res = .error .ENOTSUP ↔
      (chan ≥ 1 ∨ hw.started = false)) ∧
    (chan = 0 → hw.started = true →
      ctr_cancel_alarm s hw chan =
        { res := .ok (), st := { s with is_alarm_pending := false },
          hw := hw }) := by
  constructor
  · by_cases hc : chan ≥ 1
    · simp [ctr_cancel_alarm, hc]
    · cases hst : hw.started <;> simp [ctr_cancel_alarm, hc, hst]
  · intro hc hst
    simp [ctr_cancel_alarm, hc, hst]

/-- Witness for C9 at a concrete running state. -/
theorem C9_cancel_alarm_spec_witness :
    ctr_cancel_alarm
        { pending_alarm := { ticks := 5, absolute := true, hasCallback := true }
          is_alarm_pending := true
          top := { ticks := 0, hasCallback := false, dontReset := false,
                   resetWhenLate := false }
          is_top_set := false, last_top := 0, next_top := 0 }
        { value := 3, target := 5, started := true } 0 =
      { res := .ok ()
        st := { pending_alarm := { ticks := 5, absolute := true,
                                   hasCallback := true }
                is_alarm_pending := false
                top := { ticks := 0, hasCallback := false, dontReset := false,
                         resetWhenLate := false }
                is_top_set := false, last_top := 0, next_top := 0 }
        hw := { value := 3, target := 5, started := true } } :=
  (C9_cancel_alarm_spec _ _ 0).2 rfl rfl

/-- C10: on the valid channel with the hardware running, `ctr_cancel_alarm`
succeeds even when no alarm is pending, and a second call leaves exactly the
state of the first: the operation is idempotent at the public interface. -/
theorem C10_cancel_alarm_idempotent (s : DriverState) (hw : HwState)
    (hst : hw.started = true) :
    (ctr_cancel_alarm s hw 0).res = .ok () ∧
    ctr_cancel_alarm (ctr_cancel_alarm s hw 0).st
        (ctr_cancel_alarm s hw 0).hw 0 =
      ctr_cancel_alarm s hw 0 := by
  constructor
  · simp [ctr_cancel_alarm, hst]
  · simp [ctr_cancel_alarm, hst]

/-- Witness for C10 at a concrete state with no pending alarm. -/
theorem C10_cancel_alarm_idempotent_witness :
    (ctr_cancel_alarm
        { pending_alarm := { ticks := 0, absolute := true, hasCallback := false }
          is_alarm_pending := false
          top := { ticks := 0, hasCallback := false, dontReset := false,
                   resetWhenLate := false }
          is_top_set := false, last_top := 0, next_top := 0 }
        { value := 11, target := 42, started := true } 0).res = .ok () :=
  (C10_cancel_alarm_idempotent _ _ rfl).1

/-- C6: with a top active and the event handler entered at a snapshot equal
to `last_top + period_ticks` (mod `2^32`), after the handler runs `last_top`
equals exactly the snapshot value, `next_top` equals snapshot + period (mod
`2^32`), and the top record is still set — the handler never clears it. -/
theorem C6_top_update (s : DriverState) (hw : HwState)
    (ht : s.is_top_set = true)
    (hv : hw.value = add32 s.last_top s.top.ticks) :
    (counter_isr s hw).st.last_top = hw.value ∧
    (counter_isr s hw).st.next_top = add32 hw.value s.top.ticks ∧
    (counter_isr s hw).st.is_top_set = true := by
  simp only [counter_isr, isr_top_step, isr_alarm_step, ht, hv, true_and,
    if_true]
  split <;> simp [ht]

/-- Witness for C6 at a concrete top-fire snapshot. -/
theorem C6_top_update_witness :
    (counter_isr
        { pending_alarm := { ticks := 0, absolute := true, hasCallback := false }
          is_alarm_pending := false
          top := { ticks := 100, hasCallback := true, dontReset := false,
                   resetWhenLate := false }
          is_top_set := true, last_top := 4294967290, next_top := 94 }
        { value := 94, target := 94, started := true }).st.next_top =
      add32 94 100 :=
  (C6_top_update _ _ rfl (by decide)).2.1

/-- C4: when a top is active and a pending alarm's absolute tick coincides
with the top's next due tick `last_top + period` (both callbacks present,
period nonzero so that the same tick is not already the next period's due
tick), one event-handler run at that snapshot invokes both callbacks with
the top callback strictly first, clears the pending-alarm flag, and a second
handler run at the same snapshot value invokes no callback at all. -/
theorem C4_coincident_top_alarm (s : DriverState) (hw : HwState)
    (ht : s.is_top_set = true) (hp : s.is_alarm_pending = true)
    (htc : s.top.hasCallback = true) (hac : s.pending_alarm.hasCallback = true)
    (heq : s.pending_alarm.ticks = add32 s.last_top s.top.ticks)
    (hv : hw.value = add32 s.last_top s.top.ticks)
    (hP0 : 0 < s.top.ticks) (hPb : s.top.ticks < U32) :
    (counter_isr s hw).events = [Ev.top, Ev.alarm] ∧
    (counter_isr s hw).st.is_alarm_pending = false ∧
    (counter_isr (counter_isr s hw).st
        { (counter_isr s hw).hw with value := hw.value }).events = [] := by
  have hne : ¬ add32 s.last_top s.top.ticks =
      add32 (add32 s.last_top s.top.ticks) s.top.ticks := by
    unfold add32 U32 at *
    omega
  refine ⟨?_, ?_, ?_⟩ <;>
    simp [counter_isr, isr_top_step, isr_alarm_step, ht, hp, htc, hac, heq,
      hv, hne]

/-- Witness for C4 at a concrete coincident top/alarm state. -/
theorem C4_coincident_top_alarm_witness :
    (counter_isr
        { pending_alarm := { ticks := 150, absolute := true, hasCallback := true }
          is_alarm_pending := true
          top := { ticks := 100, hasCallback := true, dontReset := false,
                   resetWhenLate := false }
          is_top_set := true, last_top := 50, next_top := 150 }
        { value := 150, target := 150, started := true }).events =
      [Ev.top, Ev.alarm] :=
  (C4_coincident_top_alarm _ _ rfl rfl rfl rfl (by decide) (by decide)
    (by decide) (by decide)).1

/-- C5: running the event handler at a snapshot equal to `TOP_VALUE` with
neither the top nor the alarm due at that tick resets the hardware register
to 0 and programs the target to `v + min(d1, d2)` (mod `2^32`) when both a
pending alarm (wraparound distance `d1`) and an active top (next due tick
`next_top = last_top + period`, wraparound distance `d2`) are present; with
only one present it programs that one's tick, and with neither it programs
`TOP_VALUE`. -/
theorem C5_rollover_retarget (s : DriverState) (hw : HwState)
    (hv : hw.value = TOP_VALUE)
    (hb1 : s.pending_alarm.ticks < U32) (hb2 : s.next_top < U32)
    (ha : s.is_alarm_pending = true → s.pending_alarm.ticks ≠ TOP_VALUE)
    (ht : s.is_top_set = true →
      add32 s.last_top s.top.ticks ≠ TOP_VALUE ∧ s.next_top ≠ TOP_VALUE) :
    (counter_isr s hw).hw.value = 0 ∧
    (s.is_alarm_pending = true → s.is_top_set = true →
      (counter_isr s hw).hw.target =
        add32 TOP_VALUE (min (sub32 s.pending_alarm.ticks TOP_VALUE)
          (sub32 s.next_top TOP_VALUE))) ∧
    (s.is_alarm_pending = true → s.is_top_set = false →
      (counter_isr s hw).hw.target = s.pending_alarm.ticks) ∧
    (s.is_alarm_pending = false → s.is_top_set = true →
      (counter_isr s hw).hw.target = s.next_top) ∧
    (s.is_alarm_pending = false → s.is_top_set = false →
      (counter_isr s hw).hw.target = TOP_VALUE) := by
  have hmin : ∀ a n : Nat, a < U32 → n < U32 → a ≠ TOP_VALUE →
      n ≠ TOP_VALUE →
      add32 TOP_VALUE (min (sub32 a TOP_VALUE) (sub32 n TOP_VALUE)) =
        min a n := by
    intro a n h1 h2 h3 h4
    unfold add32 sub32 TOP_VALUE U32 at *
    omega
  refine ⟨?_, ?_, ?_, ?_, ?_⟩
  · rw [counter_isr_hw_eq, hv]
    exact isr_rollover_step_value _ _
  · intro hp hts
    rw [hmin s.pending_alarm.ticks s.next_top hb1 hb2 (ha hp) (ht hts).2]
    simp [counter_isr, isr_top_step, isr_alarm_step, isr_rollover_step,
      hwReset, hwSetTarget, hv, hp, hts, Ne.symm (ha hp),
      Ne.symm (ht hts).1]
  · intro hp hts
    simp [counter_isr, isr_top_step, isr_alarm_step, isr_rollover_step,
      hwReset, hwSetTarget, hv, hp, hts, Ne.symm (ha hp)]
  · intro hp hts
    simp [counter_isr, isr_top_step, isr_alarm_step, isr_rollover_step,
      hwReset, hwSetTarget, hv, hp, hts, Ne.symm (ht hts).1]
  · intro hp hts
    simp [counter_isr, isr_top_step, isr_alarm_step, isr_rollover_step,
      hwReset, hwSetTarget, hv, hp, hts]

/-- Witness for C5 at a concrete rollover snapshot with both events armed. -/
theorem C5_rollover_retarget_witness :
    (counter_isr
        { pending_alarm := { ticks := 100, absolute := true, hasCallback := true }
          is_alarm_pending := true
          top := { ticks := 400, hasCallback := true, dontReset := false,
                   resetWhenLate := false }
          is_top_set := true, last_top := 4294967096, next_top := 200 }
        { value := 4294967295, target := 4294967295,
          started := true }).hw.target =
      add32 TOP_VALUE (min (sub32 100 TOP_VALUE) (sub32 200 TOP_VALUE)) :=
  (C5_rollover_retarget _ _ rfl (by decide) (by decide)
    (fun _ => by decide) (fun _ => by decide)).2.1 rfl rfl

/-- C1 counterexample: at value `v = 3` with an active top of period
`P = 10`, the absolute alarm request `ticks = 11` has wraparound distance
`(11 - 3) mod 2^32 = 8 ≤ P`, so the claim predicts success, yet
`ctr_set_alarm` returns `-EINVAL`: the code compares against
`(top.ticks - v) mod 2^32 = 7`, not against `P`. -/
theorem C1_epoch_bound_counterexample :
    (ctr_set_alarm ce1_state ce1_hw 0 ce1_cfg).res = .error .EINVAL ∧
    ¬ sub32 ce1_cfg.ticks ce1_hw.value > ce1_state.top.ticks := by
  decide

/-- C1 amended: with no alarm pending, `ctr_set_alarm` on channel 0 returns
`-EINVAL` iff a top is active and the wraparound distance from `v` to the
normalized alarm tick exceeds the wraparound distance from `v` to the raw
period value `top.ticks` taken as an absolute tick, i.e.
`(ticks - v) mod 2^32 > (P - v) mod 2^32`; on that error the driver state
and the hardware state are unchanged. -/
theorem C1_epoch_bound_amended (s : DriverState) (hw : HwState)
    (acfg : AlarmCfg) (hp : s.is_alarm_pending = false) :
    ((ctr_set_alarm s hw 0 acfg).res = .error .EINVAL ↔
      (s.is_top_set = true ∧
        sub32 (if acfg.absolute = true then acfg.ticks
               else add32 acfg.ticks hw.value) hw.value >
          sub32 s.top.ticks hw.value)) ∧
    ((ctr_set_alarm s hw 0 acfg).res = .error .EINVAL →
      (ctr_set_alarm s hw 0 acfg).st = s ∧
      (ctr_set_alarm s hw 0 acfg).hw = hw) := by
  by_cases hc : s.is_top_set = true ∧
      sub32 (if acfg.absolute = true then acfg.ticks
             else add32 acfg.ticks hw.value) hw.value >
        sub32 s.top.ticks hw.value
  · simp [ctr_set_alarm, hp, hc]
  · simp [ctr_set_alarm, hp, hc]
    split <;> split <;> simp

/-- Witness for C1 amended at the counterexample input, which does return
`-EINVAL` and leaves both states unchanged. -/
theorem C1_epoch_bound_amended_witness :
    (ctr_set_alarm ce1_state ce1_hw 0 ce1_cfg).st = ce1_state ∧
    (ctr_set_alarm ce1_state ce1_hw 0 ce1_cfg).hw = ce1_hw :=
  (C1_epoch_bound_amended ce1_state ce1_hw ce1_cfg rfl).2 (by decide)

/-- C3 counterexample: the handler entered at snapshot `v = 10 ≠ TOP_VALUE`
with the top firing does write the hardware target register (it moves it
from 10 to 20), so the top-check step is not target-preserving. -/
theorem C3_nonrollover_frame_counterexample :
    ¬ ce3_hw.value = TOP_VALUE ∧
    ¬ (counter_isr ce3_state ce3_hw).hw.target = ce3_hw.target := by
  decide

/-- C3 amended: at a snapshot `v ≠ TOP_VALUE` the alarm-check step never
writes the hardware state and the rollover step does not run, so when the
top does not fire the hardware state is unchanged; but when the top fires
(`v = last_top + period` mod `2^32`) the top-check step itself reprograms
the target to `v + period` (or to `TOP_VALUE` when that sum wrapped below
`v`). -/
theorem C3_nonrollover_frame_amended (s : DriverState) (hw : HwState)
    (hv : ¬ hw.value = TOP_VALUE) :
    (¬ (s.is_top_set = true ∧ hw.value = add32 s.last_top s.top.ticks) →
      (counter_isr s hw).hw = hw) ∧
    (s.is_top_set = true → hw.value = add32 s.last_top s.top.ticks →
      (counter_isr s hw).hw =
        hwSetTarget hw
          (if add32 hw.value s.top.ticks < hw.value then TOP_VALUE
           else add32 hw.value s.top.ticks)) := by
  rw [counter_isr_hw_eq]
  constructor
  · intro hcond
    unfold isr_rollover_step
    rw [if_neg hv]
    unfold isr_top_step
    rw [if_neg hcond]
  · intro h1 h2
    unfold isr_rollover_step
    rw [if_neg hv]
    unfold isr_top_step
    rw [if_pos ⟨h1, h2⟩]
    show (if add32 hw.value s.top.ticks < hw.value then hwSetTarget hw TOP_VALUE
          else hwSetTarget hw (add32 hw.value s.top.ticks)) =
        hwSetTarget hw (if add32 hw.value s.top.ticks < hw.value then TOP_VALUE
          else add32 hw.value s.top.ticks)
    split <;> rfl

/-- Witness for C3 amended at the counterexample input: the top fires at
`v = 10` and the target is reprogrammed to `10 + 10 = 20`. -/
theorem C3_nonrollover_frame_amended_witness :
    (counter_isr ce3_state ce3_hw).hw =
      hwSetTarget ce3_hw
        (if add32 ce3_hw.value ce3_state.top.ticks < ce3_hw.value then
          TOP_VALUE
         else add32 ce3_hw.value ce3_state.top.ticks) :=
  (C3_nonrollover_frame_amended ce3_state ce3_hw (by decide)).2 rfl (by decide)

/-- C2 counterexample: `ctr_set_top_value` with `COUNTER_TOP_CFG_DONT_RESET`
at value `v = 2^32 - 3` and period `2^32 - 2` succeeds, activates the top,
leaves the register at `v`, and programs the target to
`v + period mod 2^32 = 2^32 - 5`, whose wraparound distance from `v`
(`2^32 - 2`) is larger than the candidate `TOP_VALUE`'s distance (`2`): the
target register does not hold the smallest-distance candidate. -/
theorem C2_target_invariant_counterexample :
    (ctr_set_top_value ce2_state ce2_hw ce2_cfg).res = .ok () ∧
    (ctr_set_top_value ce2_state ce2_hw ce2_cfg).st.is_top_set = true ∧
    (ctr_set_top_value ce2_state ce2_hw ce2_cfg).st.is_alarm_pending = false ∧
    (ctr_set_top_value ce2_state ce2_hw ce2_cfg).st.next_top = 4294967291 ∧
    (ctr_set_top_value ce2_state ce2_hw ce2_cfg).hw.value = 4294967293 ∧
    ¬ (ctr_set_top_value ce2_state ce2_hw ce2_cfg).hw.target = TOP_VALUE ∧
    sub32 TOP_VALUE (ctr_set_top_value ce2_state ce2_hw ce2_cfg).hw.value <
      sub32 (ctr_set_top_value ce2_state ce2_hw ce2_cfg).hw.target
        (ctr_set_top_value ce2_state ce2_hw ce2_cfg).hw.value := by
  decide

/-- C2 amended: the smallest-wraparound-distance rule holds for
`ctr_set_alarm` (over the candidates normalized alarm tick and `TOP_VALUE`)
and for the rollover branch of the event handler (over the candidates that
are present, measured from the post-reset value 0), but `ctr_set_top_value`
programs `v + period` directly with no comparison against `TOP_VALUE`, and
the top step of the event handler programs the smaller-distance of
`next_top` and `TOP_VALUE` only, without considering a pending alarm. -/
theorem C2_target_selection_amended (s : DriverState) (hw : HwState)
    (tcfg : TopCfg) (acfg : AlarmCfg)
    (hP : s.top.ticks < U32)
    (hpt : s.pending_alarm.ticks < U32) (hnt : s.next_top < U32) :
    ((ctr_set_alarm s hw 0 acfg).res = .ok () →
      (((ctr_set_alarm s hw 0 acfg).hw.target =
          (ctr_set_alarm s hw 0 acfg).st.pending_alarm.ticks ∨
        (ctr_set_alarm s hw 0 acfg).hw.target = TOP_VALUE) ∧
      sub32 (ctr_set_alarm s hw 0 acfg).hw.target hw.value ≤
        sub32 (ctr_set_alarm s hw 0 acfg).st.pending_alarm.ticks hw.value ∧
      sub32 (ctr_set_alarm s hw 0 acfg).hw.target hw.value ≤
        sub32 TOP_VALUE hw.value)) ∧
    ((isr_rollover_step s hw TOP_VALUE).value = 0 ∧
      ((s.is_alarm_pending = true ∧
          (isr_rollover_step s hw TOP_VALUE).target = s.pending_alarm.ticks) ∨
        (s.is_top_set = true ∧
          (isr_rollover_step s hw TOP_VALUE).target = s.next_top) ∨
        (isr_rollover_step s hw TOP_VALUE).target = TOP_VALUE) ∧
      (s.is_alarm_pending = true →
        sub32 (isr_rollover_step s hw TOP_VALUE).target 0 ≤
          sub32 s.pending_alarm.ticks 0) ∧
      (s.is_top_set = true →
        sub32 (isr_rollover_step s hw TOP_VALUE).target 0 ≤
          sub32 s.next_top 0) ∧
      sub32 (isr_rollover_step s hw TOP_VALUE).target 0 ≤
        sub32 TOP_VALUE 0) ∧
    ((ctr_set_top_value s hw tcfg).res = .ok () →
      (ctr_set_top_value s hw tcfg).st.is_top_set = true →
      (ctr_set_top_value s hw tcfg).hw.target = add32 hw.value tcfg.ticks) ∧
    (s.is_top_set = true → hw.value = add32 s.last_top s.top.ticks →
      (((isr_top_step s hw hw.value).hw.target = add32 hw.value s.top.ticks ∨
        (isr_top_step s hw hw.value).hw.target = TOP_VALUE) ∧
      sub32 (isr_top_step s hw hw.value).hw.target hw.value ≤
        sub32 (add32 hw.value s.top.ticks) hw.value ∧
      sub32 (isr_top_step s hw hw.value).hw.target hw.value ≤
        sub32 TOP_VALUE hw.value)) := by
  refine ⟨?_, ⟨?_, ?_⟩, ?_, ?_⟩
  · intro hok
    by_cases hp : s.is_alarm_pending = true
    · simp [ctr_set_alarm, hp] at hok
    · have hp' : s.is_alarm_pending = false := by
        cases h : s.is_alarm_pending
        · rfl
        · exact absurd h hp
      by_cases hc : s.is_top_set = true ∧
          sub32 (if acfg.absolute = true then acfg.ticks
                 else add32 acfg.ticks hw.value) hw.value >
            sub32 s.top.ticks hw.value
      · rw [ctr_set_alarm] at hok
        simp [hp', hc] at hok
      · rw [ctr_set_alarm_ok_eq s hw acfg hp' hc]
        by_cases hlt : sub32 TOP_VALUE hw.value <
            sub32 (if acfg.absolute = true then acfg.ticks
                   else add32 acfg.ticks hw.value) hw.value
        · rw [if_pos hlt]
          exact ⟨Or.inr rfl, le_of_lt hlt, le_refl _⟩
        · rw [if_neg hlt]
          exact ⟨Or.inl rfl, le_refl _, le_of_not_lt hlt⟩
  · exact isr_rollover_step_value s hw
  · rw [isr_rollover_step_eq]
    have htv : TOP_VALUE < U32 := by unfold TOP_VALUE U32; omega
    cases hp : s.is_alarm_pending <;> cases hts : s.is_top_set <;>
      simp [hp, hts, hwSetTarget, hwReset] <;>
      simp only [sub32, U32, TOP_VALUE] at * <;>
      omega
  · intro hok hset
    by_cases hp : s.is_alarm_pending = true
    · simp [ctr_set_top_value, hp] at hok
    · have hp' : s.is_alarm_pending = false := by
        cases h : s.is_alarm_pending
        · rfl
        · exact absurd h hp
      rw [ctr_set_top_value_eq s hw tcfg hp'] at hok hset ⊢
      by_cases hd : tcfg.dontReset = true
      · rw [if_pos hd] at hok hset ⊢
        by_cases hlate : hw.value ≥ tcfg.ticks
        · rw [if_pos hlate] at hok
          exact absurd hok (by simp)
        · rw [if_neg hlate] at hok hset ⊢
          by_cases hact : tcfg.ticks ≠ TOP_VALUE ∧ tcfg.hasCallback = true
          · rw [set_top_finish_active s hw tcfg hw.value hact]
            rfl
          · rw [set_top_finish_inactive s hw tcfg hw.value hact] at hset
            exact absurd hset (by simp)
      · rw [if_neg hd] at hok hset ⊢
        by_cases hact : tcfg.ticks ≠ TOP_VALUE ∧ tcfg.hasCallback = true
        · rw [set_top_finish_active s (hwReset hw) tcfg hw.value hact]
          rfl
        · rw [set_top_finish_inactive s (hwReset hw) tcfg hw.value hact]
            at hset
          exact absurd hset (by simp)
  · intro hts hveq
    have hvU : hw.value < U32 := by
      rw [hveq]
      unfold add32 U32
      omega
    have heq : (isr_top_step s hw hw.value).hw =
        (if add32 hw.value s.top.ticks < hw.value then hwSetTarget hw TOP_VALUE
         else hwSetTarget hw (add32 hw.value s.top.ticks)) := by
      unfold isr_top_step
      rw [if_pos ⟨hts, hveq⟩]
    rw [heq]
    by_cases hcmp : add32 hw.value s.top.ticks < hw.value
    · rw [if_pos hcmp]
      refine ⟨Or.inr rfl, ?_, le_refl _⟩
      show sub32 TOP_VALUE hw.value ≤ sub32 (add32 hw.value s.top.ticks) hw.value
      simp only [sub32, add32, TOP_VALUE, U32] at *
      omega
    · rw [if_neg hcmp]
      refine ⟨Or.inl rfl, le_refl _, ?_⟩
      show sub32 (add32 hw.value s.top.ticks) hw.value ≤ sub32 TOP_VALUE hw.value
      simp only [sub32, add32, TOP_VALUE, U32] at *
      omega

/-- Witness for C2 amended: setting a top of period 100 at value 5 programs
the target directly to `5 + 100`. -/
theorem C2_target_selection_amended_witness :
    (ctr_set_top_value
        { pending_alarm := idleAlarm
          is_alarm_pending := false
          top := idleTop
          is_top_set := false, last_top := 0, next_top := 0 }
        { value := 5, target := 4294967295, started := true }
        { ticks := 100, hasCallback := true, dontReset := false,
          resetWhenLate := false }).hw.target = add32 5 100 :=
  (C2_target_selection_amended _ _ _ idleAlarm (by decide) (by decide)
    (by decide)).2.2.1 (by decide) (by decide)

end CounterNativePosix
